import Mathlib

/-!
Verification of the SEO audit scoring and insight-synthesis logic of the
seoman-ai front-end (`src/public/script.js`, `src/unnamed/part_000`).

Shallow embedding conventions:
* JS numbers are modelled as `ℚ` (no NaN/Infinity in the model; no input in
  the repository produces them along the modelled paths).
* A possibly-absent JS field is an `Option _`; `undefined` is `none`.
* JS truthiness on a numeric field (`if (x && ...)`) is `jsTruthyQ`:
  absent and `0` are falsy, every other number is truthy.
* JS truthiness on a boolean field is `jsTruthyB`: absent is falsy.
* `x || d` on a numeric/string/list field is `Option.getD` (for numbers the
  two differ only at `0 || d = d`, and the code only uses `|| 0`, where the
  results coincide; for strings the code never feeds `""`).
* `Math.round` is `jsRound` (round half toward positive infinity).
* A JS comparison `undefined > c` / `undefined < c` is `false`
  (`optGT`, `optLT`).
Fields of the metrics record that no embedded function reads
(`status_code`, `page_size_kb`, ...) are omitted from the structures.
-/

/-- Truthiness of a possibly-absent JS number: `undefined` and `0` are falsy. -/
def jsTruthyQ : Option ℚ → Bool
  | none => false
  | some x => x ≠ 0

/-- Truthiness of a possibly-absent JS boolean: `undefined` is falsy. -/
def jsTruthyB : Option Bool → Bool
  | none => false
  | some b => b

/-- JS `x > c` where `x` may be `undefined` (`undefined > c` is `false`). -/
def optGT (o : Option ℚ) (c : ℚ) : Bool :=
  match o with
  | none => false
  | some x => c < x

/-- JS `x < c` where `x` may be `undefined` (`undefined < c` is `false`). -/
def optLT (o : Option ℚ) (c : ℚ) : Bool :=
  match o with
  | none => false
  | some x => x < c

/-- JS `Math.round`: rounds half toward positive infinity. -/
def jsRound (q : ℚ) : ℤ := (q + 1/2).floor

/-- JS `Math.min` on two (non-NaN) numbers. -/
def jsMin (a b : ℚ) : ℚ := if a ≤ b then a else b

/-- JS `Math.max` on two (non-NaN) numbers. -/
def jsMax (a b : ℚ) : ℚ := if a ≤ b then b else a

/-- Clamp `Math.max(0, Math.min(100, score))` — the clamp every category scorer ends with. -/
def clampScore (q : ℚ) : ℚ := jsMax 0 (jsMin 100 q)

theorem jsRound_eq_floor (q : ℚ) : jsRound q = ⌊q + 1/2⌋ := by
  rw [jsRound, Rat.floor_def', Rat.floor_def]

theorem jsMin_eq_min (a b : ℚ) : jsMin a b = min a b := (min_def a b).symm

theorem jsMax_eq_max (a b : ℚ) : jsMax a b = max a b := by
  rw [jsMax, max_def]

theorem clampScore_eq (q : ℚ) : clampScore q = max 0 (min 100 q) := by
  rw [clampScore, jsMin_eq_min, jsMax_eq_max]

/-- Sub-record `tech.core_web_vitals`. -/
structure CoreWebVitals where
  lcp : Option ℚ
  cls : Option ℚ
  inp : Option ℚ
deriving DecidableEq

def CoreWebVitals.empty : CoreWebVitals := ⟨none, none, none⟩

/-- The `data.technical` sub-record (fields read by the embedded functions). -/
structure TechMetrics where
  core_web_vitals : Option CoreWebVitals
  mobile_friendly : Option Bool
  ssl_grade : Option String
  canonical_issues : Option (List String)
  robots_txt_present : Option Bool
  sitemap_present : Option Bool
  canonical_present : Option Bool
  redirect_chain_length : Option ℚ
  url_length : Option ℚ
deriving DecidableEq

def TechMetrics.empty : TechMetrics :=
  ⟨none, none, none, none, none, none, none, none, none⟩

/-- The `data.content` sub-record. `entity_salience` is modelled by the key
list of the JS object (`Object.keys`); JS object keys are distinct. -/
structure ContentMetrics where
  word_count : Option ℚ
  readability_score : Option ℚ
  entity_salience : Option (List String)
  thin_content_risk : Option Bool
  intent_classification : Option String
  top_keywords : Option (List (String × ℚ))
  images_total : Option ℚ
  images_with_alt : Option ℚ
deriving DecidableEq

def ContentMetrics.empty : ContentMetrics :=
  ⟨none, none, none, none, none, none, none, none⟩

/-- The `data.authority` sub-record. -/
structure AuthorityMetrics where
  authority_score : Option ℚ
  backlinks : Option ℚ
  e_e_a_t_score : Option ℚ
  link_toxicity_risk : Option String
deriving DecidableEq

def AuthorityMetrics.empty : AuthorityMetrics := ⟨none, none, none, none⟩

/-- The `data.internal` sub-record (site structure). -/
structure InternalMetrics where
  pages_crawled : Option ℚ
  internal_links_found : Option ℚ
  external_links_found : Option ℚ
  site_structure_health : Option ℚ
  crawl_warnings : Option (List String)
deriving DecidableEq

def InternalMetrics.empty : InternalMetrics := ⟨none, none, none, none, none⟩

/-- The audit payload handed to `displayResults` / `displayScores`. -/
structure AuditData where
  technical : Option TechMetrics
  content : Option ContentMetrics
  authority : Option AuthorityMetrics
  internal : Option InternalMetrics
deriving DecidableEq

def AuditData.empty : AuditData := ⟨none, none, none, none⟩

/-- Rule `if (vitals.lcp && vitals.lcp <= 2500) score += 15` -/
def lcpBonus : Option ℚ → ℚ
  | none => 0
  | some x => if x ≠ 0 ∧ x ≤ 2500 then 15 else 0

/-- Rule `if (vitals.cls && vitals.cls <= 0.1) score += 15` -/
def clsBonus : Option ℚ → ℚ
  | none => 0
  | some x => if x ≠ 0 ∧ x ≤ 1/10 then 15 else 0

/-- Rule `if (vitals.inp && vitals.inp <= 200) score += 10` -/
def inpBonus : Option ℚ → ℚ
  | none => 0
  | some x => if x ≠ 0 ∧ x ≤ 200 then 10 else 0

/-- Rule `if (tech.canonical_issues && tech.canonical_issues.length > 0)
      score -= tech.canonical_issues.length * 5;`
(a JS array is always truthy, so only presence and nonemptiness matter). -/
def canonicalPenalty : Option (List String) → ℚ
  | none => 0
  | some l => if 0 < l.length then (l.length : ℚ) * 5 else 0

/-- Embeds `calculateTechnicalScore` (`src/public/script.js` lines 771–792):
base 50, additive core-web-vital / mobile / SSL bonuses, canonical penalty,
clamped to `[0,100]`. -/
def calculateTechnicalScore (tech : TechMetrics) : ℚ :=
  let vitals := tech.core_web_vitals.getD CoreWebVitals.empty
  clampScore (50 + lcpBonus vitals.lcp + clsBonus vitals.cls + inpBonus vitals.inp
    + (if jsTruthyB tech.mobile_friendly then 10 else 0)
    + (if tech.ssl_grade = some "A" then 10 else 0)
    - canonicalPenalty tech.canonical_issues)

/-- Word-count tier of `calculateContentScore` (`const wordCount = content.word_count || 0`). -/
def wordCountBonus (o : Option ℚ) : ℚ :=
  let wordCount := o.getD 0
  if 1000 ≤ wordCount then 20
  else if 500 ≤ wordCount then 15
  else if 300 ≤ wordCount then 10
  else if 150 ≤ wordCount then 5
  else 0

/-- Readability tier of `calculateContentScore` (`content.readability_score || 0`). -/
def readabilityBonus (o : Option ℚ) : ℚ :=
  let readability := o.getD 0
  if 60 ≤ readability then 15
  else if 40 ≤ readability then 10
  else 0

/-- Entity-diversity tier of `calculateContentScore`
(`Object.keys(content.entity_salience || {}).length`). -/
def entityBonus (o : Option (List String)) : ℚ :=
  let entityCount := (o.getD []).length
  if 10 ≤ entityCount then 15
  else if 5 ≤ entityCount then 10
  else if 3 ≤ entityCount then 5
  else 0

/-- Embeds `calculateContentScore` (`src/public/script.js` lines 794–820):
base 50, word-count / readability / entity tiers, thin-content penalty,
clamped to `[0,100]`. -/
def calculateContentScore (content : ContentMetrics) : ℚ :=
  clampScore (50 + wordCountBonus content.word_count
    + readabilityBonus content.readability_score
    + entityBonus content.entity_salience
    - (if jsTruthyB content.thin_content_risk then 20 else 0))

/-- Backlink tier of `calculateAuthorityScore` (`authority.backlinks || 0`). -/
def backlinksBonus (o : Option ℚ) : ℚ :=
  let backlinks := o.getD 0
  if 100 ≤ backlinks then 20
  else if 50 ≤ backlinks then 15
  else if 20 ≤ backlinks then 10
  else if 10 ≤ backlinks then 5
  else 0

/-- Embeds `calculateAuthorityScore` (`src/public/script.js` lines 822–845):
base 50, `min(30, authority_score*3)`, backlink tier, `e_e_a_t_score*5`,
toxicity penalty, clamped to `[0,100]`. -/
def calculateAuthorityScore (authority : AuthorityMetrics) : ℚ :=
  clampScore (50 + jsMin 30 ((authority.authority_score.getD 0) * 3)
    + backlinksBonus authority.backlinks
    + (authority.e_e_a_t_score.getD 0) * 5
    - (if authority.link_toxicity_risk = some "high" then 20
       else if authority.link_toxicity_risk = some "medium" then 10 else 0))

/-- From `displayScores` (`src/public/script.js` lines 719–737): the technical score
it displays, computed from `data.technical || {}`. -/
def techScoreOf (data : AuditData) : ℚ :=
  calculateTechnicalScore (data.technical.getD TechMetrics.empty)

/-- From `displayScores`: the content score, from `data.content || {}`. -/
def contentScoreOf (data : AuditData) : ℚ :=
  calculateContentScore (data.content.getD ContentMetrics.empty)

/-- From `displayScores`: the authority score, from `data.authority || {}`. -/
def authorityScoreOf (data : AuditData) : ℚ :=
  calculateAuthorityScore (data.authority.getD AuthorityMetrics.empty)

/-- From `displayScores`: `const overall = Math.round((tech + content + authority) / 3)`
(identical in `SEOVisionPro.displayResults`, `src/unnamed/part_000` lines 764–780). -/
def overallScoreOf (data : AuditData) : ℤ :=
  jsRound ((techScoreOf data + contentScoreOf data + authorityScoreOf data) / 3)

/-- Modelled from the spec: `mean(technical, content, authority)`, the
arithmetic mean the spec's aggregator applies in basic (three-category) mode.
Used only to compare the spec's formula with `overallScoreOf`. -/
def specMeanThree (t c a : ℚ) : ℚ := (t + c + a) / 3

theorem clampScore_nonneg (q : ℚ) : 0 ≤ clampScore q := by
  rw [clampScore_eq]; exact le_max_left 0 _

theorem clampScore_le_100 (q : ℚ) : clampScore q ≤ 100 := by
  rw [clampScore_eq]
  exact max_le (by norm_num) (min_le_left 100 q)

theorem clampScore_mono {a b : ℚ} (h : a ≤ b) : clampScore a ≤ clampScore b := by
  rw [clampScore_eq, clampScore_eq]
  exact max_le_max le_rfl (min_le_min le_rfl h)

theorem jsRound_nonneg {q : ℚ} (h : 0 ≤ q) : 0 ≤ jsRound q := by
  rw [jsRound_eq_floor]
  exact Int.le_floor.mpr (by push_cast; linarith)

theorem jsRound_le_100 {q : ℚ} (h : q ≤ 100) : jsRound q ≤ 100 := by
  rw [jsRound_eq_floor]
  have h2 : ⌊q + 1/2⌋ < 101 := Int.floor_lt.mpr (by push_cast; linarith)
  omega

/-- The §8 scenario input of the spec (claim C1). -/
def scenarioTech : TechMetrics :=
  ⟨some ⟨some 1800, some (1/20), some 150⟩, some true, some "A",
   none, none, none, none, none, none⟩

def scenarioContent : ContentMetrics :=
  ⟨some 1250, some 72, some ["a", "b", "c", "d", "e"], none, none, none, none, none⟩

def scenarioAuthority : AuthorityMetrics :=
  ⟨some (13/2), some 850, some 7, some "low"⟩

/-- C1: on the §8 scenario input the Technical score is 100 (50+15+15+10+10+10
clamped to 100), the Content score is at least 95 (50+20+15+10), and the
Authority score is 100 (50+19.5+20+35 clamped to 100). -/
theorem C1_scenario_scores :
    calculateTechnicalScore scenarioTech = 100 ∧
    95 ≤ calculateContentScore scenarioContent ∧
    calculateAuthorityScore scenarioAuthority = 100 := by
  refine ⟨?_, ?_, ?_⟩ <;>
    · simp only [scenarioTech, scenarioContent, scenarioAuthority,
        calculateTechnicalScore, calculateContentScore, calculateAuthorityScore,
        clampScore, jsMax, jsMin, jsTruthyB, lcpBonus, clsBonus, inpBonus,
        canonicalPenalty, wordCountBonus, readabilityBonus, entityBonus,
        backlinksBonus, Option.getD_some, List.length_cons, List.length_nil,
        Option.some.injEq, String.reduceEq, reduceIte, reduceCtorEq]
      norm_num

/-- C3: every category scorer clamps to `[0,100]`, and the overall score, being
the rounded mean of three clamped scores, also lies in `[0,100]`, for every
input record (including adversarial canonical-issue lists or huge
`e_e_a_t_score` values). -/
theorem C3_scores_in_range :
    (∀ tech : TechMetrics,
      0 ≤ calculateTechnicalScore tech ∧ calculateTechnicalScore tech ≤ 100) ∧
    (∀ content : ContentMetrics,
      0 ≤ calculateContentScore content ∧ calculateContentScore content ≤ 100) ∧
    (∀ authority : AuthorityMetrics,
      0 ≤ calculateAuthorityScore authority ∧ calculateAuthorityScore authority ≤ 100) ∧
    (∀ data : AuditData, 0 ≤ overallScoreOf data ∧ overallScoreOf data ≤ 100) := by
  have hclamp : ∀ q : ℚ, 0 ≤ clampScore q ∧ clampScore q ≤ 100 :=
    fun q => ⟨clampScore_nonneg q, clampScore_le_100 q⟩
  refine ⟨fun t => hclamp _, fun c => hclamp _, fun a => hclamp _, fun d => ?_⟩
  have h1 : 0 ≤ techScoreOf d ∧ techScoreOf d ≤ 100 := hclamp _
  have h2 : 0 ≤ contentScoreOf d ∧ contentScoreOf d ≤ 100 := hclamp _
  have h3 : 0 ≤ authorityScoreOf d ∧ authorityScoreOf d ≤ 100 := hclamp _
  rw [overallScoreOf]
  constructor
  · apply jsRound_nonneg
    apply div_nonneg _ (by norm_num : (0:ℚ) ≤ 3)
    linarith [h1.1, h2.1, h3.1]
  · apply jsRound_le_100
    rw [div_le_iff₀ (by norm_num : (0:ℚ) < 3)]
    linarith [h1.2, h2.2, h3.2]

/-- C4: in basic (three-category) mode the overall score equals `Math.round`
of the arithmetic mean of the technical, content and authority scores, for
every input (`displayScores`, and identically `SEOVisionPro.displayResults`). -/
theorem C4_overall_is_rounded_mean (data : AuditData) :
    overallScoreOf data =
      jsRound (specMeanThree (techScoreOf data) (contentScoreOf data)
        (authorityScoreOf data)) := rfl

/-- C5: the fully empty input `{}` evaluates without failure and every
category score is the base value 50; the overall score is then also 50. -/
theorem C5_empty_input_base_scores :
    techScoreOf AuditData.empty = 50 ∧
    contentScoreOf AuditData.empty = 50 ∧
    authorityScoreOf AuditData.empty = 50 ∧
    overallScoreOf AuditData.empty = 50 := by
  have h1 : techScoreOf AuditData.empty = 50 := by
    simp only [techScoreOf, AuditData.empty, TechMetrics.empty, CoreWebVitals.empty,
      calculateTechnicalScore, clampScore, jsMax, jsMin, jsTruthyB, lcpBonus,
      clsBonus, inpBonus, canonicalPenalty, Option.getD_none, Option.getD_some,
      reduceCtorEq, reduceIte]
    norm_num
  have h2 : contentScoreOf AuditData.empty = 50 := by
    simp only [contentScoreOf, AuditData.empty, ContentMetrics.empty,
      calculateContentScore, clampScore, jsMax, jsMin, jsTruthyB, wordCountBonus,
      readabilityBonus, entityBonus, Option.getD_none, Option.getD_some,
      List.length_nil, reduceCtorEq, reduceIte]
    norm_num
  have h3 : authorityScoreOf AuditData.empty = 50 := by
    simp only [authorityScoreOf, AuditData.empty, AuthorityMetrics.empty,
      calculateAuthorityScore, clampScore, jsMax, jsMin, backlinksBonus,
      Option.getD_none, Option.getD_some, reduceCtorEq, reduceIte]
    norm_num
  refine ⟨h1, h2, h3, ?_⟩
  rw [overallScoreOf, h1, h2, h3, jsRound_eq_floor]
  norm_num

/-- C10: the four scores `displayScores` computes read only the `technical`,
`content` and `authority` sub-records; two payloads agreeing on those three
sub-records get identical technical, content, authority and overall scores,
whatever their `internal` (structure) sub-records hold. -/
theorem C10_scores_ignore_internal (d1 d2 : AuditData)
    (ht : d1.technical = d2.technical) (hc : d1.content = d2.content)
    (ha : d1.authority = d2.authority) :
    techScoreOf d1 = techScoreOf d2 ∧ contentScoreOf d1 = contentScoreOf d2 ∧
    authorityScoreOf d1 = authorityScoreOf d2 ∧
    overallScoreOf d1 = overallScoreOf d2 := by
  refine ⟨?_, ?_, ?_, ?_⟩ <;>
    simp only [techScoreOf, contentScoreOf, authorityScoreOf, overallScoreOf,
      ht, hc, ha]

/-- Two payloads sharing the scenario sub-records but with different
`internal` sub-records (one the demo's crawl stats, one empty). -/
def dataWithInternalA : AuditData :=
  ⟨some scenarioTech, some scenarioContent, some scenarioAuthority,
   some ⟨some 42, some 125, some 68, some 82, some ["w1"]⟩⟩

def dataWithInternalB : AuditData :=
  ⟨some scenarioTech, some scenarioContent, some scenarioAuthority, none⟩

/-- Witness for C10 at a concrete pair differing only in `internal`. -/
theorem C10_scores_ignore_internal_witness :
    techScoreOf dataWithInternalA = techScoreOf dataWithInternalB ∧
    contentScoreOf dataWithInternalA = contentScoreOf dataWithInternalB ∧
    authorityScoreOf dataWithInternalA = authorityScoreOf dataWithInternalB ∧
    overallScoreOf dataWithInternalA = overallScoreOf dataWithInternalB :=
  C10_scores_ignore_internal dataWithInternalA dataWithInternalB rfl rfl rfl

/-- A technical record whose only signal is a good but nonzero CLS of 0.05. -/
def clsSmallTech : TechMetrics :=
  ⟨some ⟨none, some (1/20), none⟩, none, none, none, none, none, none, none, none⟩

/-- The same record with CLS improved to its best possible value, 0. -/
def clsZeroTech : TechMetrics :=
  ⟨some ⟨none, some 0, none⟩, none, none, none, none, none, none, none, none⟩

/-- C2 counterexample: improving CLS from 0.05 to 0 (all other fields equal)
strictly DECREASES the technical score (65 to 50), because
`if (vitals.cls && vitals.cls <= 0.1)` treats the value 0 as falsy and drops
the 15-point bonus. -/
theorem C2_counterexample_cls_zero :
    calculateTechnicalScore clsSmallTech = 65 ∧
    calculateTechnicalScore clsZeroTech = 50 ∧
    calculateTechnicalScore clsZeroTech < calculateTechnicalScore clsSmallTech := by
  have h1 : calculateTechnicalScore clsSmallTech = 65 := by
    simp only [clsSmallTech, calculateTechnicalScore, clampScore, jsMax, jsMin,
      jsTruthyB, lcpBonus, clsBonus, inpBonus, canonicalPenalty,
      Option.getD_some, Option.getD_none, reduceCtorEq, reduceIte]
    norm_num
  have h2 : calculateTechnicalScore clsZeroTech = 50 := by
    simp only [clsZeroTech, calculateTechnicalScore, clampScore, jsMax, jsMin,
      jsTruthyB, lcpBonus, clsBonus, inpBonus, canonicalPenalty,
      Option.getD_some, Option.getD_none, reduceCtorEq, reduceIte]
    norm_num
  exact ⟨h1, h2, by rw [h1, h2]; norm_num⟩

theorem lcpBonus_mono {x y : ℚ} (hy : y ≠ 0) (hxy : y ≤ x) :
    lcpBonus (some x) ≤ lcpBonus (some y) := by
  simp only [lcpBonus]
  split_ifs with h1 h2 h2 <;> try norm_num
  exact absurd ⟨hy, hxy.trans h1.2⟩ h2

theorem clsBonus_mono {x y : ℚ} (hy : y ≠ 0) (hxy : y ≤ x) :
    clsBonus (some x) ≤ clsBonus (some y) := by
  simp only [clsBonus]
  split_ifs with h1 h2 h2 <;> try norm_num
  exact absurd ⟨hy, hxy.trans h1.2⟩ h2

theorem inpBonus_mono {x y : ℚ} (hy : y ≠ 0) (hxy : y ≤ x) :
    inpBonus (some x) ≤ inpBonus (some y) := by
  simp only [inpBonus]
  split_ifs with h1 h2 h2 <;> try norm_num
  exact absurd ⟨hy, hxy.trans h1.2⟩ h2

theorem canonicalPenalty_cons (e : String) (l : List String) :
    canonicalPenalty (some l) ≤ canonicalPenalty (some (e :: l)) := by
  simp only [canonicalPenalty, List.length_cons]
  split_ifs with h1 h2 h2 <;> push_cast <;> linarith

/-- C2 (amended): the technical score never decreases when one signal is
improved and the others are held fixed, PROVIDED an improved core-web-vital
value stays nonzero — `if (vitals.x && ...)` treats 0 as missing data, so an
improvement that lands exactly on 0 can drop a bonus (see the
counterexample). The six signals: lcp lowered (nonzero), cls lowered
(nonzero), inp lowered (nonzero), mobile_friendly set to true, ssl_grade set
to "A", one canonical issue removed. -/
theorem C2_technical_monotone_per_signal :
    (∀ (v : CoreWebVitals) (mf : Option Bool) (ssl : Option String)
       (ci : Option (List String)) (ro si ca : Option Bool) (rc ul : Option ℚ)
       (x y : ℚ), y ≠ 0 → y ≤ x →
       calculateTechnicalScore ⟨some ⟨some x, v.cls, v.inp⟩, mf, ssl, ci, ro, si, ca, rc, ul⟩ ≤
       calculateTechnicalScore ⟨some ⟨some y, v.cls, v.inp⟩, mf, ssl, ci, ro, si, ca, rc, ul⟩) ∧
    (∀ (v : CoreWebVitals) (mf : Option Bool) (ssl : Option String)
       (ci : Option (List String)) (ro si ca : Option Bool) (rc ul : Option ℚ)
       (x y : ℚ), y ≠ 0 → y ≤ x →
       calculateTechnicalScore ⟨some ⟨v.lcp, some x, v.inp⟩, mf, ssl, ci, ro, si, ca, rc, ul⟩ ≤
       calculateTechnicalScore ⟨some ⟨v.lcp, some y, v.inp⟩, mf, ssl, ci, ro, si, ca, rc, ul⟩) ∧
    (∀ (v : CoreWebVitals) (mf : Option Bool) (ssl : Option String)
       (ci : Option (List String)) (ro si ca : Option Bool) (rc ul : Option ℚ)
       (x y : ℚ), y ≠ 0 → y ≤ x →
       calculateTechnicalScore ⟨some ⟨v.lcp, v.cls, some x⟩, mf, ssl, ci, ro, si, ca, rc, ul⟩ ≤
       calculateTechnicalScore ⟨some ⟨v.lcp, v.cls, some y⟩, mf, ssl, ci, ro, si, ca, rc, ul⟩) ∧
    (∀ (cw : Option CoreWebVitals) (mf : Option Bool) (ssl : Option String)
       (ci : Option (List String)) (ro si ca : Option Bool) (rc ul : Option ℚ),
       calculateTechnicalScore ⟨cw, mf, ssl, ci, ro, si, ca, rc, ul⟩ ≤
       calculateTechnicalScore ⟨cw, some true, ssl, ci, ro, si, ca, rc, ul⟩) ∧
    (∀ (cw : Option CoreWebVitals) (mf : Option Bool) (ssl : Option String)
       (ci : Option (List String)) (ro si ca : Option Bool) (rc ul : Option ℚ),
       calculateTechnicalScore ⟨cw, mf, ssl, ci, ro, si, ca, rc, ul⟩ ≤
       calculateTechnicalScore ⟨cw, mf, some "A", ci, ro, si, ca, rc, ul⟩) ∧
    (∀ (cw : Option CoreWebVitals) (mf : Option Bool) (ssl : Option String)
       (e : String) (l : List String) (ro si ca : Option Bool) (rc ul : Option ℚ),
       calculateTechnicalScore ⟨cw, mf, ssl, some (e :: l), ro, si, ca, rc, ul⟩ ≤
       calculateTechnicalScore ⟨cw, mf, ssl, some l, ro, si, ca, rc, ul⟩) := by
  have hmf : ∀ mf : Option Bool, (if jsTruthyB mf then (10:ℚ) else 0) ≤ 10 := by
    intro mf; split_ifs <;> norm_num
  have hssl : ∀ ssl : Option String, (if ssl = some "A" then (10:ℚ) else 0) ≤ 10 := by
    intro ssl; split_ifs <;> norm_num
  refine ⟨?_, ?_, ?_, ?_, ?_, ?_⟩
  · intro v mf ssl ci ro si ca rc ul x y hy hxy
    simp only [calculateTechnicalScore, Option.getD_some]
    exact clampScore_mono (by have := lcpBonus_mono hy hxy; linarith)
  · intro v mf ssl ci ro si ca rc ul x y hy hxy
    simp only [calculateTechnicalScore, Option.getD_some]
    exact clampScore_mono (by have := clsBonus_mono hy hxy; linarith)
  · intro v mf ssl ci ro si ca rc ul x y hy hxy
    simp only [calculateTechnicalScore, Option.getD_some]
    exact clampScore_mono (by have := inpBonus_mono hy hxy; linarith)
  · intro cw mf ssl ci ro si ca rc ul
    have htrue : jsTruthyB (some true) = true := rfl
    simp only [calculateTechnicalScore, htrue, if_true, eq_self_iff_true]
    exact clampScore_mono (by have := hmf mf; linarith)
  · intro cw mf ssl ci ro si ca rc ul
    simp only [calculateTechnicalScore, if_true, eq_self_iff_true]
    exact clampScore_mono (by have := hssl ssl; linarith)
  · intro cw mf ssl e l ro si ca rc ul
    simp only [calculateTechnicalScore]
    exact clampScore_mono (by have := canonicalPenalty_cons e l; linarith)

/-- Witness for the amended C2 at the spec's own example: lowering `lcp`
from 3000 to 2000 with every other field fixed does not decrease the
technical score. -/
theorem C2_technical_monotone_per_signal_witness :
    calculateTechnicalScore
        ⟨some ⟨some 3000, none, none⟩, none, none, none, none, none, none, none, none⟩ ≤
      calculateTechnicalScore
        ⟨some ⟨some 2000, none, none⟩, none, none, none, none, none, none, none, none⟩ :=
  C2_technical_monotone_per_signal.1 ⟨none, none, none⟩ none none none none none none
    none none 3000 2000 (by norm_num) (by norm_num)

/-- Predicate: `q : ℚ` is the cast of an integer. -/
def IsIntQ (q : ℚ) : Prop := ∃ k : ℤ, q = (k : ℚ)

theorem IsIntQ.add {a b : ℚ} (ha : IsIntQ a) (hb : IsIntQ b) : IsIntQ (a + b) := by
  obtain ⟨i, hi⟩ := ha; obtain ⟨j, hj⟩ := hb
  exact ⟨i + j, by rw [hi, hj]; push_cast; ring⟩

theorem IsIntQ.sub {a b : ℚ} (ha : IsIntQ a) (hb : IsIntQ b) : IsIntQ (a - b) := by
  obtain ⟨i, hi⟩ := ha; obtain ⟨j, hj⟩ := hb
  exact ⟨i - j, by rw [hi, hj]; push_cast; ring⟩

theorem IsIntQ.clampScore {q : ℚ} (h : IsIntQ q) : IsIntQ (clampScore q) := by
  obtain ⟨k, hk⟩ := h
  refine ⟨max 0 (min 100 k), ?_⟩
  rw [clampScore_eq, hk]
  push_cast
  rfl

theorem lcpBonus_isInt (o : Option ℚ) : IsIntQ (lcpBonus o) := by
  rcases o with _ | x
  · exact ⟨0, by norm_num [lcpBonus]⟩
  · simp only [lcpBonus]
    split_ifs
    exacts [⟨15, by norm_num⟩, ⟨0, by norm_num⟩]

theorem clsBonus_isInt (o : Option ℚ) : IsIntQ (clsBonus o) := by
  rcases o with _ | x
  · exact ⟨0, by norm_num [clsBonus]⟩
  · simp only [clsBonus]
    split_ifs
    exacts [⟨15, by norm_num⟩, ⟨0, by norm_num⟩]

theorem inpBonus_isInt (o : Option ℚ) : IsIntQ (inpBonus o) := by
  rcases o with _ | x
  · exact ⟨0, by norm_num [inpBonus]⟩
  · simp only [inpBonus]
    split_ifs
    exacts [⟨10, by norm_num⟩, ⟨0, by norm_num⟩]

theorem canonicalPenalty_isInt (o : Option (List String)) :
    IsIntQ (canonicalPenalty o) := by
  rcases o with _ | l
  · exact ⟨0, by norm_num [canonicalPenalty]⟩
  · simp only [canonicalPenalty]
    split_ifs
    · exact ⟨l.length * 5, by push_cast; ring⟩
    · exact ⟨0, by norm_num⟩

theorem ite_isInt (p : Prop) [Decidable p] {a b : ℚ} (ha : IsIntQ a)
    (hb : IsIntQ b) : IsIntQ (if p then a else b) := by
  split_ifs
  exacts [ha, hb]

theorem wordCountBonus_isInt (o : Option ℚ) : IsIntQ (wordCountBonus o) := by
  simp only [wordCountBonus]
  split_ifs
  exacts [⟨20, by norm_num⟩, ⟨15, by norm_num⟩, ⟨10, by norm_num⟩,
    ⟨5, by norm_num⟩, ⟨0, by norm_num⟩]

theorem readabilityBonus_isInt (o : Option ℚ) : IsIntQ (readabilityBonus o) := by
  simp only [readabilityBonus]
  split_ifs
  exacts [⟨15, by norm_num⟩, ⟨10, by norm_num⟩, ⟨0, by norm_num⟩]

theorem entityBonus_isInt (o : Option (List String)) : IsIntQ (entityBonus o) := by
  simp only [entityBonus]
  split_ifs
  exacts [⟨15, by norm_num⟩, ⟨10, by norm_num⟩, ⟨5, by norm_num⟩, ⟨0, by norm_num⟩]

theorem backlinksBonus_isInt (o : Option ℚ) : IsIntQ (backlinksBonus o) := by
  simp only [backlinksBonus]
  split_ifs
  exacts [⟨20, by norm_num⟩, ⟨15, by norm_num⟩, ⟨10, by norm_num⟩,
    ⟨5, by norm_num⟩, ⟨0, by norm_num⟩]

/-- An authority record whose only signal is the fractional
`authority_score: 6.5` of the repository's own demo data. -/
def fracAuthority : AuthorityMetrics := ⟨some (13/2), none, none, none⟩

/-- C8 counterexample: with `authority_score = 6.5` and no other authority
signal the authority score is `50 + min(30, 19.5) = 69.5`, which is not an
integer — `Math.max(0, Math.min(100, score))` does not round. -/
theorem C8_counterexample_fractional_authority :
    calculateAuthorityScore fracAuthority = 139/2 ∧
    ¬ IsIntQ (calculateAuthorityScore fracAuthority) := by
  have h : calculateAuthorityScore fracAuthority = 139/2 := by
    simp only [fracAuthority, calculateAuthorityScore, clampScore, jsMax, jsMin,
      backlinksBonus, Option.getD_some, Option.getD_none, reduceCtorEq, reduceIte]
    norm_num
  refine ⟨h, ?_⟩
  rw [h]
  rintro ⟨k, hk⟩
  have h2 : (139 : ℚ) = 2 * (k : ℚ) := by rw [← hk]; norm_num
  have h3 : (139 : ℤ) = 2 * k := by exact_mod_cast h2
  omega

/-- C8 (amended): the technical and content scores are integers for every
input; the authority score is an integer whenever the (defaulted)
`authority_score` and `e_e_a_t_score` are integers — but not in general,
since `min(30, authority_score*3)` and `e_e_a_t_score*5` enter unrounded
(see the counterexample). -/
theorem C8_scores_integer :
    (∀ tech : TechMetrics, IsIntQ (calculateTechnicalScore tech)) ∧
    (∀ content : ContentMetrics, IsIntQ (calculateContentScore content)) ∧
    (∀ authority : AuthorityMetrics,
      IsIntQ (authority.authority_score.getD 0) →
      IsIntQ (authority.e_e_a_t_score.getD 0) →
      IsIntQ (calculateAuthorityScore authority)) := by
  have h50 : IsIntQ 50 := ⟨50, by norm_num⟩
  have h20 : IsIntQ 20 := ⟨20, by norm_num⟩
  have h10 : IsIntQ 10 := ⟨10, by norm_num⟩
  have h0 : IsIntQ 0 := ⟨0, by norm_num⟩
  refine ⟨fun t => ?_, fun c => ?_, fun a ha he => ?_⟩
  · rw [calculateTechnicalScore]
    exact IsIntQ.clampScore
      (IsIntQ.sub
        (IsIntQ.add
          (IsIntQ.add
            (IsIntQ.add
              (IsIntQ.add (IsIntQ.add h50 (lcpBonus_isInt _)) (clsBonus_isInt _))
              (inpBonus_isInt _))
            (ite_isInt _ h10 h0))
          (ite_isInt _ h10 h0))
        (canonicalPenalty_isInt _))
  · rw [calculateContentScore]
    exact IsIntQ.clampScore
      (IsIntQ.sub
        (IsIntQ.add
          (IsIntQ.add (IsIntQ.add h50 (wordCountBonus_isInt _))
            (readabilityBonus_isInt _))
          (entityBonus_isInt _))
        (ite_isInt _ h20 h0))
  · obtain ⟨i, hi⟩ := ha
    obtain ⟨j, hj⟩ := he
    rw [calculateAuthorityScore, hi, hj]
    have hmin : IsIntQ (jsMin 30 ((i : ℚ) * 3)) := by
      refine ⟨min 30 (i * 3), ?_⟩
      rw [jsMin_eq_min]
      push_cast
      rfl
    have heeat : IsIntQ ((j : ℚ) * 5) := ⟨j * 5, by push_cast; ring⟩
    exact IsIntQ.clampScore
      (IsIntQ.sub
        (IsIntQ.add
          (IsIntQ.add (IsIntQ.add h50 hmin) (backlinksBonus_isInt _))
          heeat)
        (ite_isInt _ h20 (ite_isInt _ h10 h0)))

/-- Witness for the amended C8: integer authority inputs (6 and 7) give an
integer authority score. -/
theorem C8_scores_integer_witness :
    IsIntQ (calculateAuthorityScore ⟨some 6, some 850, some 7, some "low"⟩) :=
  C8_scores_integer.2.2 ⟨some 6, some 850, some 7, some "low"⟩
    ⟨6, by simp⟩ ⟨7, by simp⟩

/-- The conditional bullet lines of `generateAIAnalysis`
(`src/public/script.js` lines 1117–1152), in source order: technical
(lcp, cls, mobile), then content (thin content, word count), then authority.
`content.word_count < 300` on a missing field is false in JS (`optLT`);
`(authority.authority_score || 0) < 4` defaults first, so it fires on a
missing authority record. -/
def aiAnalysisBullets (data : AuditData) : List String :=
  let tech := data.technical.getD TechMetrics.empty
  let content := data.content.getD ContentMetrics.empty
  let authority := data.authority.getD AuthorityMetrics.empty
  let vitals := tech.core_web_vitals.getD CoreWebVitals.empty
  (if optGT vitals.lcp 2500 then
    ["• LCP needs improvement (>2.5s). Optimize largest contentful paint.\n"] else []) ++
  (if optGT vitals.cls (1/10) then
    ["• Layout shifts detected. Fix CLS issues for better UX.\n"] else []) ++
  (if !(jsTruthyB tech.mobile_friendly) then
    ["• Mobile responsiveness needs improvement.\n"] else []) ++
  (if jsTruthyB content.thin_content_risk then
    ["• Content depth is insufficient. Expand topic coverage.\n"] else []) ++
  (if optLT content.word_count 300 then
    ["• Consider expanding content for better topical authority.\n"] else []) ++
  (if optLT (some (authority.authority_score.getD 0)) 4 then
    ["• Domain authority is low. Focus on link building.\n"] else [])

/-- Embeds `generateAIAnalysis` (`src/public/script.js` lines 1117–1152): fixed
intro, the accumulated bullet lines, fixed closing recommendation — a pure
function of the metrics record (no clock, no randomness in its body). -/
def generateAIAnalysis (data : AuditData) : String :=
  "Based on my analysis, here are the key findings:\n\n"
    ++ String.join (aiAnalysisBullets data)
    ++ "\nPriority Recommendations: Technical fixes first, then content expansion, followed by authority building."

/-- Embeds `extractTechnicalIssues` (`src/unnamed/part_000` lines 353–377): plain
message strings for the five technical rules, in fixed declaration order,
with no severity field and no content/authority issues. -/
def extractTechnicalIssues (technical : TechMetrics) : List String :=
  (if !(jsTruthyB technical.robots_txt_present) then
    ["Missing robots.txt file"] else []) ++
  (if !(jsTruthyB technical.sitemap_present) then
    ["No XML sitemap found"] else []) ++
  (if !(jsTruthyB technical.canonical_present) then
    ["Missing canonical tags"] else []) ++
  (match technical.redirect_chain_length with
   | none => []
   | some x => if 2 < x then
      ["Redirect chain too long (" ++ toString x ++ " redirects)"] else []) ++
  (if optGT technical.url_length 100 then ["URL is too long"] else [])

/-- C9: `generateAIAnalysis` is deterministic — two structurally equal
payloads (fieldwise-equal records) produce byte-identical output; the
embedding is a pure function with no clock or randomness input. -/
theorem C9_generateAIAnalysis_deterministic (d1 d2 : AuditData)
    (ht : d1.technical = d2.technical) (hc : d1.content = d2.content)
    (ha : d1.authority = d2.authority) (hi : d1.internal = d2.internal) :
    generateAIAnalysis d1 = generateAIAnalysis d2 := by
  cases d1
  cases d2
  simp only at ht hc ha hi
  subst ht
  subst hc
  subst ha
  subst hi
  rfl

/-- Witness for C9 at the §8 scenario payload. -/
theorem C9_generateAIAnalysis_deterministic_witness :
    generateAIAnalysis dataWithInternalA = generateAIAnalysis dataWithInternalA :=
  C9_generateAIAnalysis_deterministic dataWithInternalA dataWithInternalA
    rfl rfl rfl rfl

/-- Technical record with robots.txt, sitemap and canonical all missing. -/
def issueTech : TechMetrics := TechMetrics.empty

/-- Content record flagged as thin content. -/
def issueContent : ContentMetrics :=
  ⟨none, none, none, some true, none, none, none, none⟩

/-- The C6 scenario payload: robots.txt missing, sitemap missing,
`thin_content_risk = true`. -/
def issueScenario : AuditData := ⟨some issueTech, some issueContent, none, none⟩

/-- C6 counterexample: on the claim's scenario the only combined issue list
the code produces (`generateAIAnalysis`): the critical thin-content line sits
AFTER the warning-level technical mobile line, and the two missing-file
warnings appear only in `extractTechnicalIssues`, a technical-only list with
no severities and no thin-content issue at all — so the critical issue is
not placed before the two warnings anywhere. -/
theorem C6_counterexample_category_order :
    aiAnalysisBullets issueScenario =
      ["• Mobile responsiveness needs improvement.\n",
       "• Content depth is insufficient. Expand topic coverage.\n",
       "• Domain authority is low. Focus on link building.\n"] ∧
    extractTechnicalIssues issueTech =
      ["Missing robots.txt file", "No XML sitemap found",
       "Missing canonical tags"] := by
  constructor
  · simp only [aiAnalysisBullets, issueScenario, issueTech, issueContent,
      TechMetrics.empty, CoreWebVitals.empty, AuthorityMetrics.empty,
      Option.getD_some, Option.getD_none, optGT, optLT, jsTruthyB,
      Bool.not_false, if_true, Bool.false_eq_true, if_false]
    norm_num
  · simp only [extractTechnicalIssues, issueTech, TechMetrics.empty,
      jsTruthyB, Bool.not_false, if_true]
    rfl

/-- C6 (amended): the combined narrative groups issues by category in fixed
declaration order — technical, then content, then authority — not by
severity: whenever the mobile-friendly warning fires (mobile_friendly falsy)
and thin content is flagged, the warning-level mobile line immediately
precedes the critical thin-content line; and `extractTechnicalIssues` lists
the missing-robots and missing-sitemap warnings first and second in its
fixed rule order. -/
theorem C6_issue_order_by_category :
    (∀ data : AuditData,
      jsTruthyB ((data.technical.getD TechMetrics.empty).mobile_friendly) = false →
      jsTruthyB ((data.content.getD ContentMetrics.empty).thin_content_risk) = true →
      ∃ pre post : List String,
        aiAnalysisBullets data =
          pre ++ "• Mobile responsiveness needs improvement.\n" ::
            "• Content depth is insufficient. Expand topic coverage.\n" :: post) ∧
    (∀ technical : TechMetrics,
      jsTruthyB technical.robots_txt_present = false →
      jsTruthyB technical.sitemap_present = false →
      ∃ rest : List String,
        extractTechnicalIssues technical =
          "Missing robots.txt file" :: "No XML sitemap found" :: rest) := by
  constructor
  · intro data h1 h2
    refine ⟨(if optGT ((data.technical.getD TechMetrics.empty).core_web_vitals.getD
          CoreWebVitals.empty).lcp 2500 then
        ["• LCP needs improvement (>2.5s). Optimize largest contentful paint.\n"] else []) ++
      (if optGT ((data.technical.getD TechMetrics.empty).core_web_vitals.getD
          CoreWebVitals.empty).cls (1/10) then
        ["• Layout shifts detected. Fix CLS issues for better UX.\n"] else []),
      (if optLT (data.content.getD ContentMetrics.empty).word_count 300 then
        ["• Consider expanding content for better topical authority.\n"] else []) ++
      (if optLT (some ((data.authority.getD AuthorityMetrics.empty).authority_score.getD 0)) 4 then
        ["• Domain authority is low. Focus on link building.\n"] else []), ?_⟩
    simp only [aiAnalysisBullets, h1, h2, Bool.not_false, if_true,
      List.append_assoc, List.cons_append, List.singleton_append,
      List.nil_append]
  · intro technical h1 h2
    refine ⟨(if !(jsTruthyB technical.canonical_present) then
        ["Missing canonical tags"] else []) ++
      (match technical.redirect_chain_length with
       | none => []
       | some x => if 2 < x then
          ["Redirect chain too long (" ++ toString x ++ " redirects)"] else []) ++
      (if optGT technical.url_length 100 then ["URL is too long"] else []), ?_⟩
    simp only [extractTechnicalIssues, h1, h2, Bool.not_false, if_true,
      List.append_assoc, List.cons_append, List.singleton_append,
      List.nil_append]

/-- Witness for the amended C6 at the scenario payload. -/
theorem C6_issue_order_by_category_witness :
    (∃ pre post : List String,
      aiAnalysisBullets issueScenario =
        pre ++ "• Mobile responsiveness needs improvement.\n" ::
          "• Content depth is insufficient. Expand topic coverage.\n" :: post) ∧
    (∃ rest : List String,
      extractTechnicalIssues issueTech =
        "Missing robots.txt file" :: "No XML sitemap found" :: rest) :=
  ⟨C6_issue_order_by_category.1 issueScenario rfl rfl,
   C6_issue_order_by_category.2 issueTech rfl rfl⟩

/-- Embeds `displayTechnicalMetrics` (`src/public/script.js` lines 847–881):
`const grade = tech.ssl_grade || 'F'`. -/
def sslGradeOf (tech : TechMetrics) : String := tech.ssl_grade.getD "F"

/-- Embeds `updateVital` (`src/public/script.js` lines 883–918): the status label.
`!value || value === 0` shows "No Data"; otherwise the threshold (and
`threshold * 1.5`) pick Good / Needs Improvement / Poor. No clamping. -/
def updateVitalStatus (value : Option ℚ) (threshold : ℚ) : String :=
  match value with
  | none => "No Data"
  | some v =>
    if v = 0 then "No Data"
    else if v ≤ threshold then "Good"
    else if v ≤ threshold * (3/2) then "Needs Improvement"
    else "Poor"

/-- From `displayContentMetrics` (lines 920–967): `const count = content.word_count || 0`. -/
def wordCountValue (content : ContentMetrics) : ℚ := content.word_count.getD 0

/-- From `displayContentMetrics`: `const score = content.readability_score || 0`,
shown as `Math.round(score)` — defaulted but NOT clamped to `[0,100]`. -/
def readabilityValue (content : ContentMetrics) : ℤ :=
  jsRound (content.readability_score.getD 0)

/-- From `displayContentMetrics`: the thin-content warning is shown iff
`content.thin_content_risk` is truthy. -/
def thinWarningShown (content : ContentMetrics) : Bool :=
  jsTruthyB content.thin_content_risk

/-- From `displayContentMetrics`: `const intentType = content.intent_classification || 'unknown'`. -/
def intentTypeOf (content : ContentMetrics) : String :=
  content.intent_classification.getD "unknown"

/-- From `displayContentMetrics`: `(content.top_keywords || []).slice(0, 5)`. -/
def keywordsShown (content : ContentMetrics) : List (String × ℚ) :=
  (content.top_keywords.getD []).take 5

/-- From `displayAuthorityMetrics` (lines 969–1008):
`const authScore = authority.authority_score || 0`, displayed as
`Math.round(authScore * 10)` out of 100. -/
def daDisplayScore (authority : AuthorityMetrics) : ℤ :=
  jsRound ((authority.authority_score.getD 0) * 10)

/-- From `displayAuthorityMetrics`: `const linkCount = authority.backlinks || 0`. -/
def linkCountValue (authority : AuthorityMetrics) : ℚ :=
  authority.backlinks.getD 0

/-- From `displayAuthorityMetrics`: `const toxicityLevel = authority.link_toxicity_risk || 'low'`. -/
def toxicityLevelOf (authority : AuthorityMetrics) : String :=
  authority.link_toxicity_risk.getD "low"

/-- From `AdvancedSEOAnalyzer.displayMetrics` (`src/unnamed/part_000` line 279):
the alt-text pair `${content.images_with_alt || 0}/${content.images_total || 0}`
— defaulted but with NO `images_with_alt ≤ images_total` clamp. -/
def imagesAltDisplay (content : ContentMetrics) : ℚ × ℚ :=
  (content.images_with_alt.getD 0, content.images_total.getD 0)

/-- A content record with out-of-range values: `readability_score = 150`
(above the declared [0,100]) and `images_with_alt = 5 > images_total = 3`. -/
def outOfRangeContent : ContentMetrics :=
  ⟨none, some 150, none, none, none, none, some 3, some 5⟩

/-- C7 counterexample: defaulting happens, but NO clamping into declared
ranges follows it: a `readability_score` of 150 is used (and displayed) as
150 > 100, and `images_with_alt = 5` is not clamped to `images_total = 3`. -/
theorem C7_counterexample_no_clamping :
    readabilityValue outOfRangeContent = 150 ∧
    ¬ readabilityValue outOfRangeContent ≤ 100 ∧
    imagesAltDisplay outOfRangeContent = (5, 3) ∧
    ¬ (imagesAltDisplay outOfRangeContent).1 ≤ (imagesAltDisplay outOfRangeContent).2 := by
  have h1 : readabilityValue outOfRangeContent = 150 := by
    rw [readabilityValue, jsRound_eq_floor]
    norm_num [outOfRangeContent]
  have h2 : imagesAltDisplay outOfRangeContent = (5, 3) := by
    simp [imagesAltDisplay, outOfRangeContent]
  refine ⟨h1, by rw [h1]; norm_num, h2, by rw [h2]; norm_num⟩

/-- C7 (amended): every missing field is defaulted exactly as stated
(booleans falsy, counts/scores 0, `ssl_grade` "F", `intent_classification`
"unknown", `link_toxicity_risk` "low", sequences empty) and the functions
are total — but present values pass through with NO clamping into their
declared ranges. -/
theorem C7_defaults_no_clamp :
    (∀ tech : TechMetrics, tech.ssl_grade = none → sslGradeOf tech = "F") ∧
    (∀ content : ContentMetrics, content.word_count = none → wordCountValue content = 0) ∧
    (∀ content : ContentMetrics, content.readability_score = none → readabilityValue content = 0) ∧
    (∀ content : ContentMetrics, content.intent_classification = none → intentTypeOf content = "unknown") ∧
    (∀ content : ContentMetrics, content.top_keywords = none → keywordsShown content = []) ∧
    (∀ content : ContentMetrics, content.thin_content_risk = none → thinWarningShown content = false) ∧
    (∀ authority : AuthorityMetrics, authority.link_toxicity_risk = none → toxicityLevelOf authority = "low") ∧
    (∀ authority : AuthorityMetrics, authority.backlinks = none → linkCountValue authority = 0) ∧
    (∀ authority : AuthorityMetrics, authority.authority_score = none → daDisplayScore authority = 0) ∧
    (∀ (value : Option ℚ) (threshold : ℚ), value = none → updateVitalStatus value threshold = "No Data") ∧
    (∀ (content : ContentMetrics) (x : ℚ), content.readability_score = some x →
      readabilityValue content = jsRound x) ∧
    (∀ (content : ContentMetrics) (v t : ℚ), content.images_with_alt = some v →
      content.images_total = some t → imagesAltDisplay content = (v, t)) := by
  have hround0 : jsRound 0 = 0 := by rw [jsRound_eq_floor]; norm_num
  refine ⟨fun tech h => by simp [sslGradeOf, h],
    fun content h => by simp [wordCountValue, h],
    fun content h => by simp [readabilityValue, h, hround0],
    fun content h => by simp [intentTypeOf, h],
    fun content h => by simp [keywordsShown, h],
    fun content h => by simp [thinWarningShown, h, jsTruthyB],
    fun authority h => by simp [toxicityLevelOf, h],
    fun authority h => by simp [linkCountValue, h],
    fun authority h => by simp [daDisplayScore, h, hround0],
    fun value threshold h => by simp [updateVitalStatus, h],
    fun content x h => by simp [readabilityValue, h],
    fun content v t hv ht => by simp [imagesAltDisplay, hv, ht]⟩

/-- Witness for the amended C7: defaults on all-empty records, and the
out-of-range record's values pass through unclamped. -/
theorem C7_defaults_no_clamp_witness :
    sslGradeOf TechMetrics.empty = "F" ∧
    intentTypeOf ContentMetrics.empty = "unknown" ∧
    toxicityLevelOf AuthorityMetrics.empty = "low" ∧
    readabilityValue outOfRangeContent = jsRound 150 ∧
    imagesAltDisplay outOfRangeContent = (5, 3) :=
  ⟨C7_defaults_no_clamp.1 TechMetrics.empty rfl,
   C7_defaults_no_clamp.2.2.2.1 ContentMetrics.empty rfl,
   C7_defaults_no_clamp.2.2.2.2.2.2.1 AuthorityMetrics.empty rfl,
   C7_defaults_no_clamp.2.2.2.2.2.2.2.2.2.2.1 outOfRangeContent 150 rfl,
   C7_defaults_no_clamp.2.2.2.2.2.2.2.2.2.2.2 outOfRangeContent 5 3 rfl rfl⟩
